import Mathlib

/-!
Verification of the forge-finance-solana core against its specification.

This file shallowly embeds the numeric core of the repository:
* `programs/forge-crucibles/src/ctoken.rs` — vault share accounting
  (`mint_ctoken`, `burn_ctoken`, `deposit_arbitrage_profit`,
  `calculate_exchange_rate`);
* `programs/lending/src/lib.rs` — interest accrual, borrow and repay;
* `programs/lending-pool/src/lib.rs` — the USDC pool borrow path;
* `programs/forge-crucibles/src/lvf.rs` — leveraged position health,
  liquidation and close-path interest.

Machine integers are embedded as `Nat` with explicit bounds checks at every
checked operation of the source that can actually fail for inputs in the
relevant machine range; a checked `u128` operation whose operands are
`u64`-range values cannot overflow and is embedded as the plain operation,
noted where it happens.  Token transfers, PDA checks and signer checks are
outside the numeric core; each embedded function keeps the source's order of
validations and state updates and returns `Except` mirroring the source's
`Result`.
-/

namespace Forge

instance {ε α : Type} [DecidableEq ε] [DecidableEq α] : DecidableEq (Except ε α)
  | .error a, .error b =>
    if h : a = b then isTrue (by rw [h])
    else isFalse (fun hh => h (Except.error.inj hh))
  | .error _, .ok _ => isFalse (fun h => Except.noConfusion h)
  | .ok _, .error _ => isFalse (fun h => Except.noConfusion h)
  | .ok a, .ok b =>
    if h : a = b then isTrue (by rw [h])
    else isFalse (fun hh => h (Except.ok.inj hh))

/-- `u64::MAX`. -/
def U64M : Nat := 2 ^ 64 - 1

/-- `u128::MAX`. -/
def U128M : Nat := 2 ^ 128 - 1

/-- Errors of the forge-crucibles program (`CrucibleError` in `state.rs`)
together with the `ProgramError` variants the code returns directly. -/
inductive CrucibleErr where
  | ProtocolPaused
  | InvalidAmount
  | VaultBalanceMismatch
  | InsufficientLiquidity
  | ArithmeticOverflow
  | InvalidArgument
  | PositionNotOpen
  | PositionNotLiquidatable
  | InvalidLeverage
  | InvalidHealthCheck
  | InvalidOraclePrice
  | StaleOraclePrice
  | SlippageExceeded
  deriving Repr, DecidableEq

/-- The numeric state of a `Crucible` account (`state.rs`), restricted to the
fields read or written by the ctoken operations.  All fields are `u64` in the
source. -/
structure Crucible where
  total_base_deposited : Nat
  total_fees_accrued : Nat
  expected_vault_balance : Nat
  paused : Bool
  deriving Repr, DecidableEq

/-- `PRICE_SCALE_FACTOR` in `ctoken.rs` (1.0 = 1_000_000). -/
def PRICE_SCALE_FACTOR : Nat := 1000000

/-- `WRAP_FEE_BPS` in `ctoken.rs` (0.5%). -/
def WRAP_FEE_BPS : Nat := 50

/-- `VAULT_FEE_SHARE_BPS` in `ctoken.rs` (80%). -/
def VAULT_FEE_SHARE_BPS : Nat := 8000

/-- `MIN_DEPOSIT_AMOUNT` in `ctoken.rs`. -/
def MIN_DEPOSIT_AMOUNT : Nat := 1000

/-- `MAX_DEPOSIT_AMOUNT` in `ctoken.rs`. -/
def MAX_DEPOSIT_AMOUNT : Nat := 1000000000000000000

/-- `calculate_exchange_rate` from `ctoken.rs` (lines 515-570).
`vault_amount` is used for validation only; the returned rate is
`(total_base_deposited + total_fees_accrued) * 1_000_000 / ctoken_supply`,
or `PRICE_SCALE_FACTOR` when the supply is zero.
The `u128` multiplication `deviation * 10_000` and the `u128` addition
`total_base_deposited + total_fees_accrued` have `u64` operands and cannot
overflow; their checks are elided.  The final `> u64::MAX` guard of the
source is kept. -/
def calculate_exchange_rate (c : Crucible) (vault_amount ctoken_supply : Nat) :
    Except CrucibleErr Nat :=
  if vault_amount < c.expected_vault_balance then
    .error .VaultBalanceMismatch
  else if c.expected_vault_balance < vault_amount ∧ 0 < c.expected_vault_balance ∧
      10000 < (vault_amount - c.expected_vault_balance) * 10000 / c.expected_vault_balance then
    .error .VaultBalanceMismatch
  else if ctoken_supply = 0 then
    .ok PRICE_SCALE_FACTOR
  else if U64M < (c.total_base_deposited + c.total_fees_accrued) * 1000000 / ctoken_supply then
    .error .ArithmeticOverflow
  else
    .ok ((c.total_base_deposited + c.total_fees_accrued) * 1000000 / ctoken_supply)

/-- Result of a successful `mint_ctoken`: updated crucible state plus the
amounts appearing in the `CTokenMinted` event. -/
structure MintOutcome where
  crucible : Crucible
  exchange_rate : Nat
  wrap_fee : Nat
  vault_fee_share : Nat
  protocol_fee_share : Nat
  net_deposit : Nat
  ctokens_minted : Nat
  deriving Repr, DecidableEq

/-- `mint_ctoken` from `ctoken.rs` (lines 26-180), numeric core.
`vault_amount` and `ctoken_supply` are the balances of the vault token
account and the ctoken mint.  The `checked_sub`s producing
`protocol_fee_share` and `net_deposit` cannot fail (the subtrahend is a
floored fraction of the minuend) and are plain subtractions.  All `u64`
checked multiplications and additions keep their overflow checks. -/
def mint_ctoken (c : Crucible) (vault_amount ctoken_supply amount : Nat) :
    Except CrucibleErr MintOutcome :=
  if c.paused then .error .ProtocolPaused
  else if amount < MIN_DEPOSIT_AMOUNT then .error .InvalidAmount
  else if MAX_DEPOSIT_AMOUNT < amount then .error .InvalidAmount
  else
    match calculate_exchange_rate c vault_amount ctoken_supply with
    | .error e => .error e
    | .ok exchange_rate =>
      if U64M < amount * WRAP_FEE_BPS then .error .ArithmeticOverflow
      else
        let wrap_fee := amount * WRAP_FEE_BPS / 10000
        if U64M < wrap_fee * VAULT_FEE_SHARE_BPS then .error .ArithmeticOverflow
        else
          let vault_fee_share := wrap_fee * VAULT_FEE_SHARE_BPS / 10000
          let protocol_fee_share := wrap_fee - vault_fee_share
          let net_deposit := amount - wrap_fee
          if U64M < net_deposit * 1000000 then .error .InvalidArgument
          else if exchange_rate = 0 then .error .InvalidArgument
          else
            let ctokens_to_mint := net_deposit * 1000000 / exchange_rate
            if U64M < c.total_base_deposited + net_deposit then .error .ArithmeticOverflow
            else if U64M < c.expected_vault_balance + net_deposit + vault_fee_share then
              .error .ArithmeticOverflow
            else if U64M < c.total_fees_accrued + vault_fee_share then .error .ArithmeticOverflow
            else
              .ok { crucible :=
                      { total_base_deposited := c.total_base_deposited + net_deposit
                        total_fees_accrued := c.total_fees_accrued + vault_fee_share
                        expected_vault_balance :=
                          c.expected_vault_balance + net_deposit + vault_fee_share
                        paused := c.paused }
                    exchange_rate := exchange_rate
                    wrap_fee := wrap_fee
                    vault_fee_share := vault_fee_share
                    protocol_fee_share := protocol_fee_share
                    net_deposit := net_deposit
                    ctokens_minted := ctokens_to_mint }

/-- Result of a successful `burn_ctoken`. -/
structure BurnOutcome where
  crucible : Crucible
  exchange_rate : Nat
  base_to_return_before_fee : Nat
  unwrap_fee : Nat
  vault_fee_share : Nat
  protocol_fee_share : Nat
  base_to_return : Nat
  deriving Repr, DecidableEq

/-- `burn_ctoken` from `ctoken.rs` (lines 183-360), numeric core, with the
0.75% `UNWRAP_FEE_BPS_SPECIAL` fee of the source.  The `u128` products
`base_to_return_before_fee * total_base_deposited` and the `u128` addition
forming `tracked_balance` have `u64` operands and cannot overflow; their
checks are elided.  The `u64` cast guard on `principal_portion` and all
`u64` checked operations are kept. -/
def burn_ctoken (c : Crucible) (vault_amount ctoken_supply ctokens_amount : Nat) :
    Except CrucibleErr BurnOutcome :=
  if c.paused then .error .ProtocolPaused
  else
    match calculate_exchange_rate c vault_amount ctoken_supply with
    | .error e => .error e
    | .ok exchange_rate =>
      if U64M < ctokens_amount * exchange_rate then .error .InvalidArgument
      else
        let base_to_return_before_fee := ctokens_amount * exchange_rate / PRICE_SCALE_FACTOR
        if vault_amount < base_to_return_before_fee then .error .InsufficientLiquidity
        else if U64M < base_to_return_before_fee * 75 then .error .ArithmeticOverflow
        else
          let unwrap_fee := base_to_return_before_fee * 75 / 10000
          if U64M < unwrap_fee * VAULT_FEE_SHARE_BPS then .error .ArithmeticOverflow
          else
            let vault_fee_share := unwrap_fee * VAULT_FEE_SHARE_BPS / 10000
            let protocol_fee_share := unwrap_fee - vault_fee_share
            let base_to_return := base_to_return_before_fee - unwrap_fee
            if U64M < base_to_return + protocol_fee_share then .error .ArithmeticOverflow
            else
              let total_deducted := base_to_return + protocol_fee_share
              let tracked_balance := c.total_base_deposited + c.total_fees_accrued
              if tracked_balance = 0 then .error .InvalidAmount
              else
                let principal_portion :=
                  base_to_return_before_fee * c.total_base_deposited / tracked_balance
                let principal_portion_u64 :=
                  if U64M < principal_portion then c.total_base_deposited else principal_portion
                if c.total_base_deposited < principal_portion_u64 then .error .InvalidAmount
                else if c.expected_vault_balance < total_deducted then .error .InvalidAmount
                else if U64M < c.total_fees_accrued + vault_fee_share then
                  .error .ArithmeticOverflow
                else
                  .ok { crucible :=
                          { total_base_deposited := c.total_base_deposited - principal_portion_u64
                            total_fees_accrued := c.total_fees_accrued + vault_fee_share
                            expected_vault_balance := c.expected_vault_balance - total_deducted
                            paused := c.paused }
                        exchange_rate := exchange_rate
                        base_to_return_before_fee := base_to_return_before_fee
                        unwrap_fee := unwrap_fee
                        vault_fee_share := vault_fee_share
                        protocol_fee_share := protocol_fee_share
                        base_to_return := base_to_return }

/-- Result of a successful `deposit_arbitrage_profit`. -/
structure ArbOutcome where
  crucible : Crucible
  exchange_rate : Nat
  vault_share : Nat
  treasury_share : Nat
  reward_ctokens : Nat
  deriving Repr, DecidableEq

/-- The `reward_ctokens` block of `deposit_arbitrage_profit` (`ctoken.rs`
lines 443-461): the arbitrageur reward in ctokens, minted only when the 1%
reward amount and the current supply are both positive; `exchange_rate = 0`
and the `u64` multiplication overflow are rejected with `InvalidAmount` as
in the source. -/
def arbitrage_reward_ctokens (exchange_rate reward_amount ctoken_supply : Nat) :
    Except CrucibleErr Nat :=
  if 0 < reward_amount ∧ 0 < ctoken_supply then
    if exchange_rate = 0 then .error .InvalidAmount
    else if U64M < reward_amount * PRICE_SCALE_FACTOR then .error .InvalidAmount
    else .ok (reward_amount * PRICE_SCALE_FACTOR / exchange_rate)
  else .ok 0

/-- `deposit_arbitrage_profit` from `ctoken.rs` (lines 366-508), numeric
core.  80% of `amount` goes to the vault (`ARBITRAGE_VAULT_SHARE_BPS`),
the rest to the treasury, and the arbitrageur is minted the reward of
`arbitrage_reward_ctokens`. -/
def deposit_arbitrage_profit (c : Crucible) (vault_amount ctoken_supply amount : Nat) :
    Except CrucibleErr ArbOutcome :=
  if c.paused then .error .ProtocolPaused
  else if amount = 0 then .error .InvalidAmount
  else if MAX_DEPOSIT_AMOUNT < amount then .error .InvalidAmount
  else
    match calculate_exchange_rate c vault_amount ctoken_supply with
    | .error e => .error e
    | .ok exchange_rate =>
      if U64M < amount * 8000 then .error .ArithmeticOverflow
      else
        let vault_share := amount * 8000 / 10000
        let treasury_share := amount - vault_share
        if U64M < amount * 100 then .error .ArithmeticOverflow
        else
          match arbitrage_reward_ctokens exchange_rate (amount * 100 / 10000) ctoken_supply with
          | .error e => .error e
          | .ok reward_ctokens =>
            if U64M < c.total_fees_accrued + vault_share then .error .ArithmeticOverflow
            else if U64M < c.expected_vault_balance + vault_share then .error .ArithmeticOverflow
            else
              .ok { crucible :=
                      { total_base_deposited := c.total_base_deposited
                        total_fees_accrued := c.total_fees_accrued + vault_share
                        expected_vault_balance := c.expected_vault_balance + vault_share
                        paused := c.paused }
                    exchange_rate := exchange_rate
                    vault_share := vault_share
                    treasury_share := treasury_share
                    reward_ctokens := reward_ctokens }

/-- `burn(mint(amount))` from an empty vault: mint into a fresh crucible with
zero balances and zero supply, then burn every ctoken received.  After the
mint, the vault token account holds `net_deposit + vault_fee_share` (both
transfers go to the vault) and the ctoken supply is `ctokens_minted`.
Returns the base returned to the user and the unwrap fee charged. -/
def mint_then_burn_all (amount : Nat) : Except CrucibleErr (Nat × Nat) :=
  match mint_ctoken ⟨0, 0, 0, false⟩ 0 0 amount with
  | .error e => .error e
  | .ok m =>
    match burn_ctoken m.crucible (m.net_deposit + m.vault_fee_share)
        m.ctokens_minted m.ctokens_minted with
    | .error e => .error e
    | .ok b => .ok (b.base_to_return, b.unwrap_fee)

/-- The gross base amount redeemed by `burn(mint(amount))` from an empty
vault: with `net = amount - fee` shares minted at the 1:1 initial rate, the
burn values them at the post-mint exchange rate
`(net + vaultFeeShare) * SCALE / net`. -/
def round_trip_gross (amount : Nat) : Nat :=
  (amount - amount * 50 / 10000) *
    ((amount - amount * 50 / 10000 + amount * 50 / 10000 * 8000 / 10000) * 1000000 /
      (amount - amount * 50 / 10000)) / 1000000

/-! ## The lending program (`programs/lending/src/lib.rs`) -/

/-- `LendingError` from `lending/src/lib.rs` (only the variants reachable
from the embedded operations). -/
inductive LendingErr where
  | InvalidParams
  | Paused
  | InvalidAmount
  | Unauthorized
  | InsufficientLiquidity
  deriving Repr, DecidableEq

/-- `InterestRateModelConfig` from `lending/src/state.rs`; all fields `u64`. -/
structure InterestRateModelConfig where
  base_rate_bps : Nat
  slope1_bps : Nat
  slope2_bps : Nat
  kink_bps : Nat
  deriving Repr, DecidableEq

/-- `Market` from `lending/src/state.rs`, numeric fields.  `total_supply`,
`total_borrowed` and `accumulated_index` are `u128`; `last_accrued_ts` is a
`u64` unix timestamp. -/
structure Market where
  total_supply : Nat
  total_borrowed : Nat
  accumulated_index : Nat
  last_accrued_ts : Nat
  interest_model : InterestRateModelConfig
  liquidation_threshold_bps : Nat
  paused : Bool
  deriving Repr, DecidableEq

/-- `RATE_SCALE` from `lending/src/lib.rs` (1e9 fixed point). -/
def RATE_SCALE : Nat := 1000000000

/-- `SECONDS_PER_YEAR` from `lending/src/lib.rs` (365 days exactly). -/
def SECONDS_PER_YEAR : Nat := 31536000

/-- The annualized interest rate computed inside `do_accrue_interest`
(`lending/src/lib.rs` lines 31-79): kink-based piecewise-linear rate on the
scaled utilization, all in `RATE_SCALE` fixed point with the source's
multiply-then-divide order.  The bps-to-scale conversions and the final
additions cannot overflow `u128` for `u64` parameters and `u128`
utilization; the product overflow checks of the source are kept in
`do_accrue_interest` itself. -/
def annual_rate_scaled (im : InterestRateModelConfig) (util_scaled : Nat) : Nat :=
  let kink_scaled := im.kink_bps * RATE_SCALE / 10000
  let base_scaled := im.base_rate_bps * RATE_SCALE / 10000
  let slope1_scaled := im.slope1_bps * RATE_SCALE / 10000
  let slope2_scaled := im.slope2_bps * RATE_SCALE / 10000
  if util_scaled ≤ kink_scaled then
    base_scaled + util_scaled * slope1_scaled / RATE_SCALE
  else
    base_scaled + kink_scaled * slope1_scaled / RATE_SCALE +
      (util_scaled - kink_scaled) * slope2_scaled / RATE_SCALE

/-- The tail of `do_accrue_interest` (`lending/src/lib.rs` lines 81-103):
apply the annualized rate `ir_scaled` linearly over the elapsed seconds,
with the source's `u128` overflow checks on the increment computation and
the final addition. -/
def accrue_with (m : Market) (now ir_scaled : Nat) : Except LendingErr Market :=
  let seconds := now - m.last_accrued_ts
  if U128M < m.accumulated_index * ir_scaled then .error .InvalidAmount
  else if U128M < m.accumulated_index * ir_scaled * seconds then .error .InvalidAmount
  else
    let increment := m.accumulated_index * ir_scaled * seconds / RATE_SCALE / SECONDS_PER_YEAR
    if U128M < m.accumulated_index + increment then .error .InvalidAmount
    else .ok { m with accumulated_index := m.accumulated_index + increment
                      last_accrued_ts := now }

/-- `do_accrue_interest` from `lending/src/lib.rs` (lines 19-104).  No-op
when `now <= last_accrued_ts`; otherwise utilization is
`total_borrowed * RATE_SCALE / max total_supply 1` and the index grows by
`index * rate * elapsed / RATE_SCALE / SECONDS_PER_YEAR`.  The `u128`
product overflow checks of the source (`util * slope1`, `kink * slope1`,
`(util - kink) * slope2`, and those inside `accrue_with`) are kept; the
division by `supply.max(1)` cannot fail. -/
def do_accrue_interest (m : Market) (now : Nat) : Except LendingErr Market :=
  if now ≤ m.last_accrued_ts then .ok m
  else if U128M < m.total_borrowed * RATE_SCALE then .error .InvalidAmount
  else
    let util_scaled := m.total_borrowed * RATE_SCALE / max m.total_supply 1
    let kink_scaled := m.interest_model.kink_bps * RATE_SCALE / 10000
    let slope1_scaled := m.interest_model.slope1_bps * RATE_SCALE / 10000
    let slope2_scaled := m.interest_model.slope2_bps * RATE_SCALE / 10000
    if util_scaled ≤ kink_scaled then
      if U128M < util_scaled * slope1_scaled then .error .InvalidAmount
      else accrue_with m now (annual_rate_scaled m.interest_model util_scaled)
    else
      if U128M < kink_scaled * slope1_scaled then .error .InvalidAmount
      else if U128M < (util_scaled - kink_scaled) * slope2_scaled then .error .InvalidAmount
      else accrue_with m now (annual_rate_scaled m.interest_model util_scaled)

/-- `BorrowerAccount` from `lending/src/state.rs`: `principal` and
`borrow_index` are `u128`.  The source detects a freshly created account by
`borrower == Pubkey::default()`; that flag is modelled as `initialized`,
and the signer-match check (a pubkey comparison) is outside the numeric
core. -/
structure BorrowerAccount where
  initialized : Bool
  principal : Nat
  borrow_index : Nat
  deriving Repr, DecidableEq

/-- The borrower-account part of `borrow` (`lending/src/lib.rs` lines
302-345): initialize a fresh account at the current index, otherwise move
`borrow_index` to the weighted average of the existing debt's index and the
current index.  The `u128` checked products and the checked sum are kept;
the division by `old_principal + amount` cannot fail for `amount > 0`. -/
def borrow_update_index (b : BorrowerAccount) (current_index amount : Nat) :
    Except LendingErr BorrowerAccount :=
  if b.initialized = false then
    .ok { initialized := true, principal := 0, borrow_index := current_index }
  else if U128M < b.principal + amount then .error .InvalidAmount
  else if 0 < b.principal then
    if U128M < b.principal * b.borrow_index then .error .InvalidAmount
    else if U128M < amount * current_index then .error .InvalidAmount
    else if U128M < b.principal * b.borrow_index + amount * current_index then
      .error .InvalidAmount
    else
      .ok { b with borrow_index :=
        (b.principal * b.borrow_index + amount * current_index) / (b.principal + amount) }
  else .ok { b with borrow_index := current_index }

/-- `borrow` from `lending/src/lib.rs` (lines 288-372).  After accrual it
requires only `amount <= total_supply - total_borrowed` (as `i128`
arithmetic; embedded as `total_borrowed + amount <= total_supply`) — there
is no reserve floor — failing with `InvalidAmount`, then updates the
borrower's weighted-average index, the principal and `total_borrowed`. -/
def borrow (m : Market) (b : BorrowerAccount) (now amount : Nat) :
    Except LendingErr (Market × BorrowerAccount) :=
  if m.paused then .error .Paused
  else if amount = 0 then .error .InvalidAmount
  else
    match do_accrue_interest m now with
    | .error e => .error e
    | .ok m1 =>
      if m1.total_supply < m1.total_borrowed + amount then .error .InvalidAmount
      else
        match borrow_update_index b m1.accumulated_index amount with
        | .error e => .error e
        | .ok b1 =>
          if U128M < b1.principal + amount then .error .InvalidAmount
          else if U128M < m1.total_borrowed + amount then .error .InvalidAmount
          else .ok ({ m1 with total_borrowed := m1.total_borrowed + amount },
                    { b1 with principal := b1.principal + amount })

/-- The final state update of `repay` (`lending/src/lib.rs` lines 439-457):
validate both balances cover the repaid principal, then decrement them. -/
def repay_apply (m1 : Market) (b : BorrowerAccount) (principal_repaid : Nat) :
    Except LendingErr (Market × BorrowerAccount) :=
  if b.principal < principal_repaid then .error .InvalidAmount
  else if m1.total_borrowed < principal_repaid then .error .InvalidAmount
  else .ok ({ m1 with total_borrowed := m1.total_borrowed - principal_repaid },
            { b with principal := b.principal - principal_repaid })

/-- `repay` from `lending/src/lib.rs` (lines 374-461).  After accrual,
`total_owed = principal * accumulated_index / borrow_index.max(1)`; reject
`amount > total_owed`; on `amount >= total_owed` repay the whole principal,
otherwise repay `amount * borrow_index / accumulated_index.max(1)`.  The
borrower's `borrow_index` is left unchanged in both cases. -/
def repay (m : Market) (b : BorrowerAccount) (now amount : Nat) :
    Except LendingErr (Market × BorrowerAccount) :=
  if m.paused then .error .Paused
  else if amount = 0 then .error .InvalidAmount
  else
    match do_accrue_interest m now with
    | .error e => .error e
    | .ok m1 =>
      if U128M < b.principal * m1.accumulated_index then .error .InvalidAmount
      else
        let total_owed := b.principal * m1.accumulated_index / max b.borrow_index 1
        if U64M < total_owed then .error .InvalidAmount
        else if total_owed < amount then .error .InvalidAmount
        else if total_owed ≤ amount then repay_apply m1 b b.principal
        else if U128M < amount * b.borrow_index then .error .InvalidAmount
        else repay_apply m1 b (amount * b.borrow_index / max m1.accumulated_index 1)

/-! ## The USDC lending pool (`programs/lending-pool/src/lib.rs`) -/

/-- `LendingPoolError` from `lending-pool/src/lib.rs`, plus the
`ProgramError::ArithmeticOverflow` the code returns directly. -/
inductive LendingPoolErr where
  | InsufficientLiquidity
  | RepayAmountExceedsDebt
  | InvalidBorrower
  | InvalidAmount
  | PoolPaused
  | Unauthorized
  | InvalidConfig
  | ArithmeticOverflow
  deriving Repr, DecidableEq

/-- The numeric state of `LendingPool` (`lending-pool/src/lib.rs`); all
balance and rate fields are `u64`. -/
structure LendingPool where
  total_liquidity : Nat
  total_borrowed : Nat
  borrow_rate : Nat
  lender_rate : Nat
  paused : Bool
  deriving Repr, DecidableEq

/-- `BorrowerAccount` of the lending pool: `amount_borrowed` and
`borrow_timestamp` are `u64`; the fresh-account pubkey test is modelled as
`initialized`. -/
structure PoolBorrower where
  initialized : Bool
  amount_borrowed : Nat
  borrow_timestamp : Nat
  deriving Repr, DecidableEq

/-- `MIN_LIQUIDITY_RESERVE` from `borrow_usdc` (1 USDC). -/
def MIN_LIQUIDITY_RESERVE : Nat := 1000000

/-- `MAX_BORROW_AMOUNT` from `borrow_usdc` (1 billion USDC). -/
def MAX_BORROW_AMOUNT : Nat := 1000000000000000

/-- The borrower-account part of `borrow_usdc` (`lending-pool/src/lib.rs`
lines 398-437): weighted-average borrow timestamp.  The `u128`
intermediate products of two `u64` values cannot overflow and the
weighted average of two `u64` timestamps fits in `u64`; the `u64` checked
sum is kept. -/
def pool_borrower_update (b : PoolBorrower) (now amount : Nat) :
    Except LendingPoolErr PoolBorrower :=
  if b.initialized = false then
    .ok { initialized := true, amount_borrowed := 0, borrow_timestamp := now }
  else if U64M < b.amount_borrowed + amount then .error .ArithmeticOverflow
  else if 0 < b.amount_borrowed then
    .ok { b with borrow_timestamp :=
      (b.amount_borrowed * b.borrow_timestamp + amount * now) /
        (b.amount_borrowed + amount) }
  else .ok { b with borrow_timestamp := now }

/-- `borrow_usdc` from `lending-pool/src/lib.rs` (lines 318-454), numeric
core (PDA, mint and transfer plumbing elided).  The reserve floor: the
available liquidity must cover `MIN_LIQUIDITY_RESERVE` and the requested
amount, each `checked_sub` failure and the final requirement reporting
`InsufficientLiquidity`. -/
def borrow_usdc (pool : LendingPool) (b : PoolBorrower) (now amount : Nat) :
    Except LendingPoolErr (LendingPool × PoolBorrower) :=
  if pool.paused then .error .PoolPaused
  else if amount = 0 then .error .InvalidAmount
  else if MAX_BORROW_AMOUNT < amount then .error .InvalidAmount
  else if pool.total_liquidity < pool.total_borrowed then .error .InsufficientLiquidity
  else if pool.total_liquidity - pool.total_borrowed < MIN_LIQUIDITY_RESERVE then
    .error .InsufficientLiquidity
  else if pool.total_liquidity - pool.total_borrowed - MIN_LIQUIDITY_RESERVE < amount then
    .error .InsufficientLiquidity
  else if U64M < pool.total_borrowed + amount then .error .ArithmeticOverflow
  else
    match pool_borrower_update b now amount with
    | .error e => .error e
    | .ok b1 =>
      if U64M < b1.amount_borrowed + amount then .error .ArithmeticOverflow
      else .ok ({ pool with total_borrowed := pool.total_borrowed + amount },
                { b1 with amount_borrowed := b1.amount_borrowed + amount })

/-! ## Leveraged positions (`programs/forge-crucibles/src/lvf.rs`) -/

/-- The numeric fields of `LeveragedPosition` (`lvf.rs`); `collateral` and
`borrowed_usdc` are `u64`, `created_at` a slot number. -/
structure LeveragedPosition where
  collateral : Nat
  borrowed_usdc : Nat
  created_at : Nat
  is_open : Bool
  deriving Repr, DecidableEq

/-- The total debt (borrowed plus accrued interest) computed identically by
`health_check` (`lvf.rs` lines 875-902) and `liquidate_position` (`lvf.rs`
lines 954-980): a hardcoded 10% APY (`rate_decimal = 10 * 1_000_000 / 100 =
100_000`) applied over slot-based years (`slots * 1_000_000 / 78_840_000`).
The `u128` products that cannot overflow for `u64` inputs (`slots *
1_000_000`, `borrowed * 100_000`) are embedded plainly; the triple-product
check of the source is kept. -/
def lvf_hardcoded_debt (borrowed_usdc created_at slot : Nat) : Except CrucibleErr Nat :=
  if slot < created_at then .error .InvalidLeverage
  else
    let years_elapsed := (slot - created_at) * 1000000 / 78840000
    if U128M < borrowed_usdc * 100000 * years_elapsed then .error .ArithmeticOverflow
    else .ok (borrowed_usdc + borrowed_usdc * 100000 * years_elapsed / 1000000000000)

/-- The repay amount computed by `close_leveraged_position` (`lvf.rs` lines
225-288): `borrow_rate` is the value read from the lending-pool account
bytes at offset 56; elapsed slots are converted to seconds at 400ms per
slot and the interest is `borrowed * rate * seconds / 100 /
SECONDS_PER_YEAR`.  The checked products that can overflow `u128` and the
`u64` cast guard on the total are kept. -/
def lvf_close_repay_amount (borrowed_usdc created_at slot borrow_rate : Nat) :
    Except CrucibleErr Nat :=
  if slot < created_at then .error .InvalidLeverage
  else
    let seconds_elapsed := (slot - created_at) * 400 / 1000
    if U128M < borrowed_usdc * borrow_rate then .error .InvalidAmount
    else if U128M < borrowed_usdc * borrow_rate * seconds_elapsed then .error .InvalidAmount
    else
      let interest := borrowed_usdc * borrow_rate * seconds_elapsed / 100 / 31536000
      if U64M < borrowed_usdc + interest then .error .ArithmeticOverflow
      else .ok (borrowed_usdc + interest)

/-- Result of a successful `liquidate_position`. -/
structure LiquidationOutcome where
  ltv_bps : Nat
  total_debt : Nat
  total_repay_amount : Nat
  collateral_seized : Nat
  collateral_after : Nat
  deriving Repr, DecidableEq

/-- `liquidate_position` from `lvf.rs` (lines 925-1138), numeric core.
`price` is the already-validated oracle price (`get_oracle_price` computes
in floating point and is treated as an input; its minimum accepted scaled
price is 1000, so `price = 0` is unreachable and embedded as an error).
The debt is `lvf_hardcoded_debt`; liquidation requires `ltv_bps > 8500`
strictly, seizes `debt * SCALE / price + bonus * SCALE / price` capped at
the position's collateral, and zeroes the position's debt. -/
def liquidate_position (paused : Bool) (p : LeveragedPosition) (price slot : Nat) :
    Except CrucibleErr LiquidationOutcome :=
  if paused then .error .ProtocolPaused
  else if p.is_open = false then .error .PositionNotOpen
  else
    let collateral_value_usdc := p.collateral * price / 1000000
    match lvf_hardcoded_debt p.borrowed_usdc p.created_at slot with
    | .error e => .error e
    | .ok total_debt =>
      if collateral_value_usdc = 0 then .error .InvalidHealthCheck
      else if U128M < total_debt * 10000 then .error .ArithmeticOverflow
      else
        let ltv_bps := total_debt * 10000 / collateral_value_usdc
        if ltv_bps ≤ 8500 then .error .PositionNotLiquidatable
        else
          let liquidation_bonus := total_debt * 500 / 10000
          let total_repay := total_debt + liquidation_bonus
          if U64M < total_repay then .error .ArithmeticOverflow
          else if price = 0 then .error .ArithmeticOverflow
          else
            let total_seized := total_debt * 1000000 / price +
              liquidation_bonus * 1000000 / price
            if p.collateral < total_seized then
              .ok { ltv_bps := ltv_bps, total_debt := total_debt
                    total_repay_amount := total_repay
                    collateral_seized := p.collateral, collateral_after := 0 }
            else if U64M < total_seized then .error .ArithmeticOverflow
            else
              .ok { ltv_bps := ltv_bps, total_debt := total_debt
                    total_repay_amount := total_repay
                    collateral_seized := total_seized
                    collateral_after := p.collateral - total_seized }

/-- A successful `calculate_exchange_rate` with positive supply returns the
tracked-balance rate; the actual vault balance does not enter the value. -/
theorem calculate_exchange_rate_ok_pos {c : Crucible} {v s r : Nat} (hs : s ≠ 0)
    (h : calculate_exchange_rate c v s = .ok r) :
    r = (c.total_base_deposited + c.total_fees_accrued) * 1000000 / s := by
  unfold calculate_exchange_rate at h
  split_ifs at h
  all_goals simp_all

/-- A successful `calculate_exchange_rate` with zero supply returns the 1:1
initial rate. -/
theorem calculate_exchange_rate_ok_zero {c : Crucible} {v r : Nat}
    (h : calculate_exchange_rate c v 0 = .ok r) : r = PRICE_SCALE_FACTOR := by
  unfold calculate_exchange_rate at h
  split_ifs at h <;> simp_all

/-- C1 (amended): `calculate_exchange_rate` fails with `VaultBalanceMismatch`
exactly when the actual balance is below `expected_vault_balance`, or when
`expected_vault_balance` is positive and the excess deviation measured in
integer basis points, `(actual - expected) * 10000 / expected`, exceeds
10000 (with a zero expected balance the deviation check is skipped); and any
two actual balances that both pass validation yield the identical rate. -/
theorem exchange_rate_donation_resistance (c : Crucible) (v1 v2 s : Nat) :
    ((calculate_exchange_rate c v1 s = .error .VaultBalanceMismatch) ↔
      (v1 < c.expected_vault_balance ∨
        (0 < c.expected_vault_balance ∧ c.expected_vault_balance < v1 ∧
          10000 < (v1 - c.expected_vault_balance) * 10000 / c.expected_vault_balance))) ∧
    (∀ r1 r2, calculate_exchange_rate c v1 s = .ok r1 →
      calculate_exchange_rate c v2 s = .ok r2 → r1 = r2) := by
  constructor
  · unfold calculate_exchange_rate
    split_ifs with h1 h2 h3 h4 <;> simp_all
  · intro r1 r2 h1 h2
    rcases Nat.eq_zero_or_pos s with hs | hs
    · subst hs
      rw [calculate_exchange_rate_ok_zero h1, calculate_exchange_rate_ok_zero h2]
    · rw [calculate_exchange_rate_ok_pos (Nat.pos_iff_ne_zero.mp hs) h1,
        calculate_exchange_rate_ok_pos (Nat.pos_iff_ne_zero.mp hs) h2]

/-- Witness for the C1 amended theorem at concrete inputs: a drained balance
(3 < 4) trips `VaultBalanceMismatch`, and two passing balances (4 and 5,
expected 4) give the same rate. -/
theorem exchange_rate_donation_resistance_witness :
    calculate_exchange_rate ⟨6, 0, 4, false⟩ 3 3 = .error .VaultBalanceMismatch ∧
    (2000000 : Nat) = 2000000 :=
  ⟨(exchange_rate_donation_resistance ⟨6, 0, 4, false⟩ 3 4 3).1.mpr (Or.inl (by decide)),
   (exchange_rate_donation_resistance ⟨6, 0, 4, false⟩ 4 5 3).2 2000000 2000000
     (by decide) (by decide)⟩

/-- C7: the first-deposit worked example.  Minting 1,000,000 units into an
empty crucible yields fee 5,000, vault share 4,000, treasury share 1,000,
net 995,000 and 995,000 shares at the 1:1 initial rate, and the exchange
rate immediately afterwards is `(995000 + 4000) * 1000000 / 995000`,
strictly greater than `PRICE_SCALE_FACTOR`. -/
theorem first_deposit_worked_example :
    mint_ctoken ⟨0, 0, 0, false⟩ 0 0 1000000 =
      .ok { crucible := ⟨995000, 4000, 999000, false⟩
            exchange_rate := 1000000
            wrap_fee := 5000
            vault_fee_share := 4000
            protocol_fee_share := 1000
            net_deposit := 995000
            ctokens_minted := 995000 } ∧
    calculate_exchange_rate ⟨995000, 4000, 999000, false⟩ 999000 995000 =
      .ok ((995000 + 4000) * 1000000 / 995000) ∧
    PRICE_SCALE_FACTOR < (995000 + 4000) * 1000000 / 995000 := by
  exact ⟨by decide, by decide, by decide⟩

/-- C1 counterexample: with `expected_vault_balance = 0` the source skips the
deviation check entirely, so an actual balance of 1 — which exceeds the
expected balance by more than 10000 bps of it (the bound is 0) — still
passes validation and the rate is returned. -/
theorem exchange_rate_zero_expected_counterexample :
    calculate_exchange_rate ⟨0, 0, 0, false⟩ 1 0 = .ok 1000000 ∧
    0 * 10000 / 10000 < 1 - 0 := by
  exact ⟨by decide, by decide⟩

/-- C6 counterexample: `burn(mint(1000000))` from an empty vault returns
991,507 with a burn fee of 7,492, not `1000000 - 5000 - 7492 = 987508` as
the round-trip claim states — the sole depositor recoups the vault share of
the mint fee (4,000, less 1 unit of rounding) as yield. -/
theorem mint_burn_round_trip_counterexample :
    mint_then_burn_all 1000000 = .ok (991507, 7492) ∧
    991507 ≠ 1000000 - 5000 - 7492 := by
  exact ⟨by decide, by decide⟩

/-- C9 counterexample: depositing 10,000 of arbitrage profit into a crucible
with zero ctoken supply mints the arbitrageur 0 ctokens, not the 1% of the
deposit at the current (1:1) rate — `10000 * 100 / 10000 * 1000000 / 1000000
= 100` — that the claim states. -/
theorem arbitrage_reward_zero_supply_counterexample :
    deposit_arbitrage_profit ⟨0, 0, 0, false⟩ 0 0 10000 =
      .ok { crucible := ⟨0, 8000, 8000, false⟩
            exchange_rate := 1000000
            vault_share := 8000
            treasury_share := 2000
            reward_ctokens := 0 } ∧
    (0 : Nat) ≠ 10000 * 100 / 10000 * 1000000 / 1000000 := by
  exact ⟨by decide, by decide⟩

/-- Inversion for the arbitrage reward block. -/
theorem arbitrage_reward_ctokens_ok {r ra s rc : Nat}
    (h : arbitrage_reward_ctokens r ra s = .ok rc) :
    rc = (if 0 < ra ∧ 0 < s then ra * PRICE_SCALE_FACTOR / r else 0) ∧
    (0 < ra ∧ 0 < s → r ≠ 0) := by
  unfold arbitrage_reward_ctokens at h
  split_ifs at h with h1 h2 h3
  all_goals
    first
      | exact Except.noConfusion h
      | exact ⟨by rw [if_pos h1]; exact (Except.ok.inj h).symm, fun _ => h2⟩
      | exact ⟨by rw [if_neg h1]; exact (Except.ok.inj h).symm, fun hc => absurd hc h1⟩

/-- Inversion for `deposit_arbitrage_profit`: a successful call determines
the rate, the reward and the whole outcome. -/
theorem deposit_arbitrage_profit_ok {c : Crucible} {va s amount : Nat} {out : ArbOutcome}
    (hok : deposit_arbitrage_profit c va s amount = .ok out) :
    ∃ r rc, calculate_exchange_rate c va s = .ok r ∧
      arbitrage_reward_ctokens r (amount * 100 / 10000) s = .ok rc ∧
      out = ⟨⟨c.total_base_deposited, c.total_fees_accrued + amount * 8000 / 10000,
        c.expected_vault_balance + amount * 8000 / 10000, c.paused⟩,
        r, amount * 8000 / 10000, amount - amount * 8000 / 10000, rc⟩ := by
  unfold deposit_arbitrage_profit at hok
  dsimp only at hok
  split at hok
  · exact Except.noConfusion hok
  split at hok
  · exact Except.noConfusion hok
  split at hok
  · exact Except.noConfusion hok
  split at hok
  · exact Except.noConfusion hok
  rename_i r hr
  split at hok
  · exact Except.noConfusion hok
  split at hok
  · exact Except.noConfusion hok
  split at hok
  · exact Except.noConfusion hok
  rename_i rc hrc
  split at hok
  · exact Except.noConfusion hok
  split at hok
  · exact Except.noConfusion hok
  exact ⟨r, rc, hr, hrc, (Except.ok.inj hok).symm⟩

set_option maxRecDepth 4000 in
/-- C9 (amended): `deposit_arbitrage_profit` adds 80% of the deposit to
accrued fees and to the expected vault balance, sends the remaining 20% to
the treasury, and mints the arbitrageur `(amount * 100 / 10000) * SCALE /
rate` ctokens when both the 1% reward and the current ctoken supply are
positive (no reward is minted at zero supply); and for every state and
positive deposit passing validation, the exchange rate computed after the
operation is at least the rate computed before it. -/
theorem arbitrage_profit_rate_monotone (c : Crucible) (va s amount : Nat)
    (out : ArbOutcome) (r2 : Nat)
    (hok : deposit_arbitrage_profit c va s amount = .ok out)
    (hafter : calculate_exchange_rate out.crucible (va + out.vault_share)
        (s + out.reward_ctokens) = .ok r2) :
    out.crucible.total_fees_accrued = c.total_fees_accrued + amount * 8000 / 10000 ∧
    out.crucible.expected_vault_balance = c.expected_vault_balance + amount * 8000 / 10000 ∧
    out.crucible.total_base_deposited = c.total_base_deposited ∧
    out.vault_share = amount * 8000 / 10000 ∧
    out.treasury_share = amount - amount * 8000 / 10000 ∧
    out.reward_ctokens =
      (if 0 < amount * 100 / 10000 ∧ 0 < s then
        amount * 100 / 10000 * PRICE_SCALE_FACTOR / out.exchange_rate else 0) ∧
    out.exchange_rate ≤ r2 := by
  obtain ⟨r, rc, hr, hrc, hout⟩ := deposit_arbitrage_profit_ok hok
  obtain ⟨hrc_val, hrc_pos⟩ := arbitrage_reward_ctokens_ok hrc
  subst hout
  dsimp only at hafter ⊢
  refine ⟨rfl, rfl, rfl, rfl, rfl, hrc_val, ?_⟩
  rcases Nat.eq_zero_or_pos s with hs | hs
  · subst hs
    have hrc0 : rc = 0 := by simpa using hrc_val
    subst hrc0
    have h1 : r = PRICE_SCALE_FACTOR := calculate_exchange_rate_ok_zero hr
    have h2 : r2 = PRICE_SCALE_FACTOR := calculate_exchange_rate_ok_zero hafter
    omega
  · have hsne : s ≠ 0 := Nat.pos_iff_ne_zero.mp hs
    have hr_eq : r = (c.total_base_deposited + c.total_fees_accrued) * 1000000 / s :=
      calculate_exchange_rate_ok_pos hsne hr
    have hs2 : s + rc ≠ 0 := by omega
    have hr2_eq := calculate_exchange_rate_ok_pos hs2 hafter
    dsimp only at hr2_eq
    have key1 : r * s ≤ (c.total_base_deposited + c.total_fees_accrued) * 1000000 := by
      rw [hr_eq]; exact Nat.div_mul_le_self _ _
    have hv : amount * 100 / 10000 ≤ amount * 8000 / 10000 :=
      Nat.div_le_div_right (Nat.mul_le_mul le_rfl (by norm_num))
    have key2 : r * rc ≤ amount * 100 / 10000 * 1000000 := by
      by_cases hra : 0 < amount * 100 / 10000
      · have hcond : 0 < amount * 100 / 10000 ∧ 0 < s := ⟨hra, hs⟩
        have hrc_eq : rc = amount * 100 / 10000 * PRICE_SCALE_FACTOR / r := by
          rw [hrc_val, if_pos hcond]
        have : rc * r ≤ amount * 100 / 10000 * PRICE_SCALE_FACTOR := by
          rw [hrc_eq]; exact Nat.div_mul_le_self _ _
        calc r * rc = rc * r := Nat.mul_comm _ _
          _ ≤ amount * 100 / 10000 * PRICE_SCALE_FACTOR := this
          _ = amount * 100 / 10000 * 1000000 := rfl
      · have hrc0 : rc = 0 := by
          rw [hrc_val, if_neg (by tauto)]
        simp [hrc0]
    rw [hr2_eq, Nat.le_div_iff_mul_le (Nat.pos_of_ne_zero hs2)]
    calc r * (s + rc) = r * s + r * rc := Nat.mul_add r s rc
      _ ≤ (c.total_base_deposited + c.total_fees_accrued) * 1000000 +
          amount * 100 / 10000 * 1000000 := Nat.add_le_add key1 key2
      _ ≤ (c.total_base_deposited + c.total_fees_accrued) * 1000000 +
          amount * 8000 / 10000 * 1000000 :=
        Nat.add_le_add_left (Nat.mul_le_mul_right _ hv) _
      _ = (c.total_base_deposited +
          (c.total_fees_accrued + amount * 8000 / 10000)) * 1000000 := by ring

set_option maxRecDepth 4000 in
/-- Witness for the C9 amended theorem: with 1,000 deposited, zero fees,
supply 1,000 and an arbitrage deposit of 10,000, the rate before is
1,000,000 and the rate after is 8,181,818. -/
theorem arbitrage_profit_rate_monotone_witness : (1000000 : Nat) ≤ 8181818 :=
  (arbitrage_profit_rate_monotone ⟨1000, 0, 1000, false⟩ 1000 1000 10000
    ⟨⟨1000, 8000, 9000, false⟩, 1000000, 8000, 2000, 100⟩ 8181818
    (by decide) (by decide)).2.2.2.2.2.2

/-- A mint into an empty crucible: fee `amount * 50 / 10000`, 80% of it to
the vault, shares minted 1:1 on the net deposit. -/
theorem mint_from_empty (amount : Nat) (h1 : MIN_DEPOSIT_AMOUNT ≤ amount)
    (h2 : amount ≤ 10 ^ 13) :
    mint_ctoken ⟨0, 0, 0, false⟩ 0 0 amount =
      .ok ⟨⟨amount - amount * 50 / 10000,
            amount * 50 / 10000 * 8000 / 10000,
            amount - amount * 50 / 10000 + amount * 50 / 10000 * 8000 / 10000, false⟩,
           1000000, amount * 50 / 10000, amount * 50 / 10000 * 8000 / 10000,
           amount * 50 / 10000 - amount * 50 / 10000 * 8000 / 10000,
           amount - amount * 50 / 10000, amount - amount * 50 / 10000⟩ := by
  have h1a : 1000 ≤ amount := h1
  have hcalc : calculate_exchange_rate ⟨0, 0, 0, false⟩ 0 0 = .ok 1000000 := by decide
  unfold mint_ctoken
  rw [hcalc]
  rw [if_neg (by decide : ¬((⟨0, 0, 0, false⟩ : Crucible).paused = true))]
  rw [if_neg (by simp only [MIN_DEPOSIT_AMOUNT]; omega : ¬(amount < MIN_DEPOSIT_AMOUNT))]
  rw [if_neg (by simp only [MAX_DEPOSIT_AMOUNT]; omega : ¬(MAX_DEPOSIT_AMOUNT < amount))]
  dsimp only
  rw [if_neg (by simp only [U64M, WRAP_FEE_BPS]; omega : ¬(U64M < amount * WRAP_FEE_BPS))]
  rw [if_neg (by simp only [U64M, WRAP_FEE_BPS, VAULT_FEE_SHARE_BPS]; omega :
    ¬(U64M < amount * WRAP_FEE_BPS / 10000 * VAULT_FEE_SHARE_BPS))]
  rw [if_neg (by simp only [U64M, WRAP_FEE_BPS]; omega :
    ¬(U64M < (amount - amount * WRAP_FEE_BPS / 10000) * 1000000))]
  rw [if_neg (by omega : ¬((1000000 : Nat) = 0))]
  rw [if_neg (by simp only [U64M, WRAP_FEE_BPS]; omega :
    ¬(U64M < 0 + (amount - amount * WRAP_FEE_BPS / 10000)))]
  rw [if_neg (by simp only [U64M, WRAP_FEE_BPS, VAULT_FEE_SHARE_BPS]; omega :
    ¬(U64M < 0 + (amount - amount * WRAP_FEE_BPS / 10000) +
        amount * WRAP_FEE_BPS / 10000 * VAULT_FEE_SHARE_BPS / 10000))]
  rw [if_neg (by simp only [U64M, WRAP_FEE_BPS, VAULT_FEE_SHARE_BPS]; omega :
    ¬(U64M < 0 + amount * WRAP_FEE_BPS / 10000 * VAULT_FEE_SHARE_BPS / 10000))]
  simp only [WRAP_FEE_BPS, VAULT_FEE_SHARE_BPS, Nat.zero_add]
  rw [Nat.mul_div_cancel (amount - amount * 50 / 10000) (by norm_num : (0 : Nat) < 1000000)]

set_option maxHeartbeats 1000000 in
/-- C6 (amended): `burn(mint(amount))` from an empty vault returns
`g - burnFee` with `burnFee = g * 75 / 10000` (the burn-side fee is 75 bps)
and `g = round_trip_gross amount` the net deposit revalued at the post-mint
exchange rate; `net <= g <= net + vaultFeeShare` for `net = amount -
mintFee`, so the sole depositor recoups the vault share of the mint fee up
to rounding and receives at least `amount - mintFee - burnFee`. -/
theorem mint_burn_round_trip (amount : Nat) (h1 : MIN_DEPOSIT_AMOUNT ≤ amount)
    (h2 : amount ≤ 10 ^ 13) :
    mint_then_burn_all amount =
      .ok (round_trip_gross amount - round_trip_gross amount * 75 / 10000,
           round_trip_gross amount * 75 / 10000) ∧
    amount - amount * 50 / 10000 ≤ round_trip_gross amount ∧
    round_trip_gross amount ≤
      amount - amount * 50 / 10000 + amount * 50 / 10000 * 8000 / 10000 ∧
    amount - amount * 50 / 10000 - round_trip_gross amount * 75 / 10000 ≤
      round_trip_gross amount - round_trip_gross amount * 75 / 10000 := by
  have h1a : 1000 ≤ amount := h1
  unfold mint_then_burn_all round_trip_gross
  rw [mint_from_empty amount h1 h2]
  dsimp only
  set wf := amount * 50 / 10000 with hwf
  set net := amount - wf with hnet
  set v := wf * 8000 / 10000 with hv
  set R := (net + v) * 1000000 / net with hR_def
  set g := net * R / 1000000 with hg
  clear_value wf net v R g
  have hb1 : net + v ≤ amount := by omega
  have hnet0 : 0 < net := by omega
  have hRmul : net * R ≤ (net + v) * 1000000 := by
    rw [hR_def]
    calc net * ((net + v) * 1000000 / net)
        = (net + v) * 1000000 / net * net := Nat.mul_comm _ _
      _ ≤ (net + v) * 1000000 := Nat.div_mul_le_self _ _
  have hR_ub : R ≤ (net + v) * 1000000 := by
    rw [hR_def]; exact Nat.div_le_self _ _
  have hg_ub : g ≤ net + v := by
    rw [hg]
    have h : net * R / 1000000 ≤ (net + v) * 1000000 / 1000000 :=
      Nat.div_le_div_right hRmul
    rwa [Nat.mul_div_cancel (net + v) (by norm_num)] at h
  have hR_ge : 1000000 ≤ R := by
    rw [hR_def, Nat.le_div_iff_mul_le hnet0]
    calc 1000000 * net = net * 1000000 := Nat.mul_comm _ _
      _ ≤ (net + v) * 1000000 := Nat.mul_le_mul_right 1000000 (Nat.le_add_right _ _)
  have hg_lb : net ≤ g := by
    rw [hg]
    have h : net * 1000000 ≤ net * R := Nat.mul_le_mul_left net hR_ge
    have h2 : net * 1000000 / 1000000 ≤ net * R / 1000000 := Nat.div_le_div_right h
    rwa [Nat.mul_div_cancel net (by norm_num)] at h2
  have hpp_le : g * net / (net + v) ≤ net := by
    have h : g * net ≤ (net + v) * net := Nat.mul_le_mul_right net hg_ub
    have h2 : g * net / (net + v) ≤ (net + v) * net / (net + v) := Nat.div_le_div_right h
    rwa [Nat.mul_div_cancel_left net (by omega : 0 < net + v)] at h2
  have hRcalc : calculate_exchange_rate ⟨net, v, net + v, false⟩ (net + v) net = .ok R := by
    unfold calculate_exchange_rate
    simp only [U64M]
    rw [← hR_def]
    split_ifs with c1 c2 c3 c4
    all_goals first | contradiction | (exfalso; omega) | rfl
  refine ⟨?_, hg_lb, hg_ub, by omega⟩
  unfold burn_ctoken
  rw [hRcalc]
  dsimp only
  simp only [U64M, PRICE_SCALE_FACTOR, VAULT_FEE_SHARE_BPS]
  rw [← hg]
  rw [if_neg (by decide : ¬(false = true))]
  rw [if_neg (by omega : ¬(2 ^ 64 - 1 < net * R))]
  rw [if_neg (by omega : ¬(net + v < g))]
  rw [if_neg (by omega : ¬(2 ^ 64 - 1 < g * 75))]
  rw [if_neg (by omega : ¬(2 ^ 64 - 1 < g * 75 / 10000 * 8000))]
  rw [if_neg (by omega :
    ¬(2 ^ 64 - 1 < g - g * 75 / 10000 + (g * 75 / 10000 - g * 75 / 10000 * 8000 / 10000)))]
  rw [if_neg (by omega : ¬(net + v = 0))]
  rw [if_neg (by omega : ¬(2 ^ 64 - 1 < g * net / (net + v)))]
  rw [if_neg (by omega : ¬(net < g * net / (net + v)))]
  rw [if_neg (by omega :
    ¬(net + v < g - g * 75 / 10000 + (g * 75 / 10000 - g * 75 / 10000 * 8000 / 10000)))]
  rw [if_neg (by omega : ¬(2 ^ 64 - 1 < v + g * 75 / 10000 * 8000 / 10000))]


/-- Witness for the C6 amended theorem at `amount = 1000000`: the round trip
returns the gross value minus the 75 bps burn fee. -/
theorem mint_burn_round_trip_witness :
    mint_then_burn_all 1000000 =
      .ok (round_trip_gross 1000000 - round_trip_gross 1000000 * 75 / 10000,
           round_trip_gross 1000000 * 75 / 10000) :=
  (mint_burn_round_trip 1000000 (by decide) (by norm_num)).1

/-- Inversion for the accrual tail: on success the index grows by exactly
`index * ir * elapsed / (RATE_SCALE * SECONDS_PER_YEAR)` and the timestamp
moves to `now`. -/
theorem accrue_with_ok {m : Market} {now ir : Nat} {m1n : Market}
    (h : accrue_with m now ir = .ok m1n) :
    m1n = { m with
      accumulated_index := m.accumulated_index +
        m.accumulated_index * ir * (now - m.last_accrued_ts) /
          (RATE_SCALE * SECONDS_PER_YEAR)
      last_accrued_ts := now } := by
  unfold accrue_with at h
  dsimp only at h
  split at h
  · exact Except.noConfusion h
  split at h
  · exact Except.noConfusion h
  split at h
  · exact Except.noConfusion h
  rw [Nat.div_div_eq_div_mul] at h
  exact (Except.ok.inj h).symm

/-- Inversion for `do_accrue_interest`: a successful accrual preserves the
balances and model, never decreases the index, is the identity when no time
has passed, and otherwise applies `annual_rate_scaled` linearly. -/
theorem do_accrue_interest_ok {m : Market} {now : Nat} {m1 : Market}
    (h : do_accrue_interest m now = .ok m1) :
    m1.total_supply = m.total_supply ∧ m1.total_borrowed = m.total_borrowed ∧
    m1.interest_model = m.interest_model ∧ m1.paused = m.paused ∧
    m.accumulated_index ≤ m1.accumulated_index ∧
    (now ≤ m.last_accrued_ts → m1 = m) ∧
    (m.last_accrued_ts < now →
      m1 = { m with
        accumulated_index := m.accumulated_index +
          m.accumulated_index *
            annual_rate_scaled m.interest_model
              (m.total_borrowed * RATE_SCALE / max m.total_supply 1) *
            (now - m.last_accrued_ts) / (RATE_SCALE * SECONDS_PER_YEAR)
        last_accrued_ts := now }) := by
  unfold do_accrue_interest at h
  dsimp only at h
  split at h
  · rename_i hle
    have hm : m1 = m := (Except.ok.inj h).symm
    subst hm
    exact ⟨rfl, rfl, rfl, rfl, le_rfl, fun _ => rfl, fun hlt => absurd hlt (by omega)⟩
  · rename_i hgt
    split at h
    · exact Except.noConfusion h
    split at h
    · split at h
      · exact Except.noConfusion h
      · have hm := accrue_with_ok h
        subst hm
        exact ⟨rfl, rfl, rfl, rfl, Nat.le_add_right _ _,
          fun hle => absurd hle (by omega), fun _ => rfl⟩
    · split at h
      · exact Except.noConfusion h
      split at h
      · exact Except.noConfusion h
      · have hm := accrue_with_ok h
        subst hm
        exact ⟨rfl, rfl, rfl, rfl, Nat.le_add_right _ _,
          fun hle => absurd hle (by omega), fun _ => rfl⟩

/-- C5: `do_accrue_interest` is a no-op when `now <= last_accrued_ts`;
otherwise it adds exactly `accumulated_index * annual_rate_scaled
(utilization) * elapsed / (RATE_SCALE * SECONDS_PER_YEAR)` to the index
(utilization `total_borrowed * RATE_SCALE / max total_supply 1`) and sets
the timestamp to `now`; the index never decreases. -/
theorem accrue_interest_spec (m : Market) (now : Nat) :
    (now ≤ m.last_accrued_ts → do_accrue_interest m now = .ok m) ∧
    (∀ m1, do_accrue_interest m now = .ok m1 →
      m.accumulated_index ≤ m1.accumulated_index ∧
      (m.last_accrued_ts < now →
        m1 = { m with
          accumulated_index := m.accumulated_index +
            m.accumulated_index *
              annual_rate_scaled m.interest_model
                (m.total_borrowed * RATE_SCALE / max m.total_supply 1) *
              (now - m.last_accrued_ts) / (RATE_SCALE * SECONDS_PER_YEAR)
          last_accrued_ts := now })) := by
  constructor
  · intro hle
    unfold do_accrue_interest
    rw [if_pos hle]
  · intro m1 h
    obtain ⟨-, -, -, -, hmono, -, hstep⟩ := do_accrue_interest_ok h
    exact ⟨hmono, hstep⟩

/-- Witness for C5: a market at 50% utilization with base 200 bps and slope1
1000 bps accrues 221 index units over 100 seconds on an index of 1e9. -/
theorem accrue_interest_spec_witness :
    (⟨1000, 500, 1000000221, 200, ⟨200, 1000, 5000, 8000⟩, 8500, false⟩ : Market) =
      { (⟨1000, 500, 1000000000, 100, ⟨200, 1000, 5000, 8000⟩, 8500, false⟩ : Market) with
        accumulated_index := 1000000000 +
          1000000000 *
            annual_rate_scaled ⟨200, 1000, 5000, 8000⟩ (500 * RATE_SCALE / max 1000 1) *
            (200 - 100) / (RATE_SCALE * SECONDS_PER_YEAR)
        last_accrued_ts := 200 } :=
  ((accrue_interest_spec ⟨1000, 500, 1000000000, 100, ⟨200, 1000, 5000, 8000⟩, 8500, false⟩
      200).2
    ⟨1000, 500, 1000000221, 200, ⟨200, 1000, 5000, 8000⟩, 8500, false⟩ (by decide)).2
    (by decide)

/-- C3 counterexample: the `lending` program's `borrow` lets a borrower take
the entire supplied liquidity — amount 1,000,000 with supply 1,000,000 and
nothing borrowed succeeds, leaving zero un-borrowed liquidity, although it
exceeds `totalSupply - totalBorrowed - minimumReserve` for the pool's
1,000,000-unit reserve (and for any positive reserve). -/
theorem lending_borrow_no_reserve_counterexample :
    borrow ⟨1000000, 0, 1000000000, 5, ⟨0, 0, 0, 0⟩, 8500, false⟩ ⟨false, 0, 0⟩ 5 1000000 =
      .ok (⟨1000000, 1000000, 1000000000, 5, ⟨0, 0, 0, 0⟩, 8500, false⟩,
           ⟨true, 1000000, 1000000000⟩) ∧
    1000000 - 0 - 1000000 < 1000000 := by
  exact ⟨by decide, by decide⟩

/-- C3 (amended): the reserve floor lives in the pool program only.
`borrow_usdc` succeeds only when the amount leaves at least
`MIN_LIQUIDITY_RESERVE` un-borrowed, and fails with
`InsufficientLiquidity` whenever an otherwise-valid request would breach
the reserve; the `lending` program's `borrow` enforces only
`amount + total_borrowed <= total_supply`, with no reserve floor. -/
theorem borrow_reserve_floor (pool : LendingPool) (pb : PoolBorrower) (nowp amountp : Nat)
    (m : Market) (b : BorrowerAccount) (nowm amountm : Nat) :
    (∀ r, borrow_usdc pool pb nowp amountp = .ok r →
      amountp + pool.total_borrowed + MIN_LIQUIDITY_RESERVE ≤ pool.total_liquidity) ∧
    (pool.paused = false → 0 < amountp → amountp ≤ MAX_BORROW_AMOUNT →
      pool.total_liquidity < amountp + pool.total_borrowed + MIN_LIQUIDITY_RESERVE →
      borrow_usdc pool pb nowp amountp = .error .InsufficientLiquidity) ∧
    (∀ r, borrow m b nowm amountm = .ok r →
      amountm + m.total_borrowed ≤ m.total_supply) := by
  refine ⟨?_, ?_, ?_⟩
  · intro r h
    unfold borrow_usdc at h
    split at h
    · exact Except.noConfusion h
    split at h
    · exact Except.noConfusion h
    split at h
    · exact Except.noConfusion h
    split at h
    · exact Except.noConfusion h
    split at h
    · exact Except.noConfusion h
    split at h
    · exact Except.noConfusion h
    · rename_i h1 h2 h3
      omega
  · intro hp h0 hmax hres
    unfold borrow_usdc
    rw [hp]
    rw [if_neg (by decide : ¬(false = true))]
    rw [if_neg (by omega : ¬(amountp = 0))]
    rw [if_neg (Nat.not_lt.mpr hmax)]
    by_cases h1 : pool.total_liquidity < pool.total_borrowed
    · rw [if_pos h1]
    · rw [if_neg h1]
      by_cases h2 : pool.total_liquidity - pool.total_borrowed < MIN_LIQUIDITY_RESERVE
      · rw [if_pos h2]
      · rw [if_neg h2]
        rw [if_pos (by simp only [MIN_LIQUIDITY_RESERVE] at h2 hres ⊢; omega :
          pool.total_liquidity - pool.total_borrowed - MIN_LIQUIDITY_RESERVE < amountp)]
  · intro r h
    unfold borrow at h
    split at h
    · exact Except.noConfusion h
    split at h
    · exact Except.noConfusion h
    split at h
    · exact Except.noConfusion h
    rename_i m1 hacc
    split at h
    · exact Except.noConfusion h
    rename_i hliq
    obtain ⟨hs, hb, -, -, -, -, -⟩ := do_accrue_interest_ok hacc
    omega

/-- Witness for the C3 amended theorem: a pool with 3,000,000 liquidity
grants a 1,000,000 borrow (reserve left intact), one with 1,500,000 refuses
it with `InsufficientLiquidity`, and a `lending` market borrow implies the
liquidity bound. -/
theorem borrow_reserve_floor_witness :
    1000000 + 0 + MIN_LIQUIDITY_RESERVE ≤ 3000000 ∧
    borrow_usdc ⟨1500000, 0, 10, 5, false⟩ ⟨false, 0, 0⟩ 7 1000000 =
      .error .InsufficientLiquidity ∧
    1000000 + 0 ≤ 2000000 :=
  ⟨(borrow_reserve_floor ⟨3000000, 0, 10, 5, false⟩ ⟨false, 0, 0⟩ 7 1000000
      ⟨2000000, 0, 1000000000, 5, ⟨0, 0, 0, 0⟩, 8500, false⟩ ⟨false, 0, 0⟩ 5 1000000).1
     (⟨3000000, 1000000, 10, 5, false⟩, ⟨true, 1000000, 7⟩) (by decide),
   (borrow_reserve_floor ⟨1500000, 0, 10, 5, false⟩ ⟨false, 0, 0⟩ 7 1000000
      ⟨2000000, 0, 1000000000, 5, ⟨0, 0, 0, 0⟩, 8500, false⟩ ⟨false, 0, 0⟩ 5 1000000).2.1
     rfl (by decide) (by decide) (by decide),
   (borrow_reserve_floor ⟨1500000, 0, 10, 5, false⟩ ⟨false, 0, 0⟩ 7 1000000
      ⟨2000000, 0, 1000000000, 5, ⟨0, 0, 0, 0⟩, 8500, false⟩ ⟨false, 0, 0⟩ 5 1000000).2.2
     (⟨2000000, 1000000, 1000000000, 5, ⟨0, 0, 0, 0⟩, 8500, false⟩,
      ⟨true, 1000000, 1000000000⟩) (by decide)⟩

/-- An amount strictly below the total owed repays a principal portion that
never exceeds the outstanding principal. -/
theorem principal_repaid_le {P B C amount : Nat}
    (h : amount < P * C / max B 1) :
    amount * B / max C 1 ≤ P := by
  rcases Nat.eq_zero_or_pos B with hB | hB
  · subst hB
    simp
  · have hBmax : max B 1 = B := by omega
    rw [hBmax] at h
    rcases Nat.eq_zero_or_pos C with hC | hC
    · subst hC
      simp at h
    · have hCmax : max C 1 = C := by omega
      rw [hCmax]
      have h1 : amount * B ≤ P * C := by
        have h2 : amount ≤ P * C / B := Nat.le_of_lt h
        have h3 : amount * B ≤ P * C / B * B := Nat.mul_le_mul_right B h2
        exact le_trans h3 (Nat.div_mul_le_self _ _)
      have h4 : amount * B / C ≤ P * C / C := Nat.div_le_div_right h1
      rwa [Nat.mul_div_cancel P hC] at h4

/-- C4: after accrual to `m1`, with `totalOwed = principal *
accumulated_index / borrow_index.max 1`, `repay` rejects `amount >
totalOwed`; at `amount = totalOwed` it repays the whole principal; and for
`0 < amount < totalOwed` it decreases the principal and `total_borrowed` by
exactly `amount * borrow_index / accumulated_index.max 1` (integer
division) while leaving the stored `borrow_index` — the remaining
principal's effective entry point — unchanged. -/
theorem repay_spec (m : Market) (b : BorrowerAccount) (now amount : Nat)
    (m1 : Market) (hacc : do_accrue_interest m now = .ok m1)
    (hp : m.paused = false) (ha : 0 < amount)
    (hmul : b.principal * m1.accumulated_index ≤ U128M)
    (howed64 : b.principal * m1.accumulated_index / max b.borrow_index 1 ≤ U64M)
    (hinv : b.principal ≤ m1.total_borrowed) :
    (b.principal * m1.accumulated_index / max b.borrow_index 1 < amount →
      repay m b now amount = .error .InvalidAmount) ∧
    (amount = b.principal * m1.accumulated_index / max b.borrow_index 1 →
      repay m b now amount =
        .ok ({ m1 with total_borrowed := m1.total_borrowed - b.principal },
             { b with principal := 0 })) ∧
    (amount < b.principal * m1.accumulated_index / max b.borrow_index 1 →
      amount * b.borrow_index ≤ U128M →
      repay m b now amount =
        .ok ({ m1 with total_borrowed :=
                 m1.total_borrowed - amount * b.borrow_index / max m1.accumulated_index 1 },
             { b with principal :=
                 b.principal - amount * b.borrow_index / max m1.accumulated_index 1 })) := by
  have hform : repay m b now amount =
      (if b.principal * m1.accumulated_index / max b.borrow_index 1 < amount then
        .error .InvalidAmount
      else if b.principal * m1.accumulated_index / max b.borrow_index 1 ≤ amount then
        repay_apply m1 b b.principal
      else if U128M < amount * b.borrow_index then .error .InvalidAmount
      else repay_apply m1 b (amount * b.borrow_index / max m1.accumulated_index 1)) := by
    unfold repay
    rw [hacc]
    dsimp only
    rw [hp]
    rw [if_neg (by decide : ¬(false = true))]
    rw [if_neg (by omega : ¬(amount = 0))]
    rw [if_neg (Nat.not_lt.mpr hmul)]
    rw [if_neg (Nat.not_lt.mpr howed64)]
  refine ⟨?_, ?_, ?_⟩
  · intro hgt
    rw [hform, if_pos hgt]
  · intro heq
    rw [hform, if_neg (by omega), if_pos (by omega)]
    unfold repay_apply
    rw [if_neg (by omega : ¬(b.principal < b.principal)), if_neg (Nat.not_lt.mpr hinv)]
    simp [Nat.sub_self]
  · intro hlt hB
    have hrle : amount * b.borrow_index / max m1.accumulated_index 1 ≤ b.principal :=
      principal_repaid_le hlt
    rw [hform, if_neg (by omega), if_neg (by omega), if_neg (Nat.not_lt.mpr hB)]
    unfold repay_apply
    rw [if_neg (Nat.not_lt.mpr hrle), if_neg (Nat.not_lt.mpr (le_trans hrle hinv))]

/-- Witness for C4: index 2e9 against entry index 1e9 doubles the owed
amount to 200 on a principal of 100; repaying 3 removes exactly
`3 * 1e9 / 2e9 = 1` unit of principal, leaving the entry index unchanged. -/
theorem repay_spec_witness :
    repay ⟨1000, 500, 2000000000, 100, ⟨0, 0, 0, 0⟩, 8500, false⟩
        ⟨true, 100, 1000000000⟩ 100 3 =
      .ok (⟨1000, 499, 2000000000, 100, ⟨0, 0, 0, 0⟩, 8500, false⟩,
           ⟨true, 99, 1000000000⟩) :=
  (repay_spec ⟨1000, 500, 2000000000, 100, ⟨0, 0, 0, 0⟩, 8500, false⟩
      ⟨true, 100, 1000000000⟩ 100 3
      ⟨1000, 500, 2000000000, 100, ⟨0, 0, 0, 0⟩, 8500, false⟩
      (by decide) rfl (by decide) (by decide) (by decide) (by decide)).2.2
    (by decide) (by decide)

/-- C2 counterexample: a position whose computed `ltv_bps` equals the
8500 threshold exactly (debt 8500 against collateral value 10000) is
rejected with `PositionNotLiquidatable` — the source requires `ltv >
threshold` strictly — and a successful liquidation seizes
`debt*SCALE/price + bonus*SCALE/price` with two separate floors, which at
debt 100, bonus 5, price 3.0 yields 34, not the single-floor
`min(collateral, (debt+bonus)*SCALE/price) = 35` of the claim. -/
theorem liquidation_boundary_counterexample :
    8500 * 10000 / (10000 * 1000000 / 1000000) = 8500 ∧
    liquidate_position false ⟨10000, 8500, 0, true⟩ 1000000 0 =
      .error .PositionNotLiquidatable ∧
    liquidate_position false ⟨39, 100, 5, true⟩ 3000000 5 =
      .ok ⟨8547, 100, 105, 34, 5⟩ ∧
    34 ≠ min 39 ((100 + 100 * 500 / 10000) * 1000000 / 3000000) := by
  exact ⟨by decide, by decide, by decide, by decide⟩

/-- C2 (amended): for an un-paused protocol and an open position whose
hardcoded-rate debt is `debt` (bounded so no overflow check trips) and
whose collateral value is positive, `liquidate_position` fails with
`PositionNotLiquidatable` whenever `ltv_bps ≤ 8500` — including exact
equality with the threshold — and succeeds whenever `ltv_bps > 8500`
strictly, seizing `min(collateral, debt*SCALE/price + bonus*SCALE/price)`
where the two summands are floored separately and `bonus = debt*500/10000`. -/
theorem liquidate_position_spec (p : LeveragedPosition) (price slot debt : Nat)
    (hdebt : lvf_hardcoded_debt p.borrowed_usdc p.created_at slot = .ok debt)
    (hopen : p.is_open = true) (hd : debt ≤ 10 ^ 16)
    (hcol : p.collateral ≤ 10 ^ 18) (hpr : 0 < price)
    (hcv : 0 < p.collateral * price / 1000000) :
    (debt * 10000 / (p.collateral * price / 1000000) ≤ 8500 →
      liquidate_position false p price slot = .error .PositionNotLiquidatable) ∧
    (8500 < debt * 10000 / (p.collateral * price / 1000000) →
      liquidate_position false p price slot =
        .ok { ltv_bps := debt * 10000 / (p.collateral * price / 1000000)
              total_debt := debt
              total_repay_amount := debt + debt * 500 / 10000
              collateral_seized := min p.collateral
                (debt * 1000000 / price + debt * 500 / 10000 * 1000000 / price)
              collateral_after := p.collateral - min p.collateral
                (debt * 1000000 / price + debt * 500 / 10000 * 1000000 / price) }) := by
  have hbonus : debt * 500 / 10000 ≤ debt := by
    have h1 : debt * 500 ≤ debt * 10000 := Nat.mul_le_mul_left debt (by norm_num)
    have h2 : debt * 500 / 10000 ≤ debt * 10000 / 10000 := Nat.div_le_div_right h1
    rwa [Nat.mul_div_cancel debt (by norm_num)] at h2
  have hof1 : ¬(U128M < debt * 10000) := by
    have h1 : debt * 10000 ≤ 10 ^ 16 * 10000 := Nat.mul_le_mul_right 10000 hd
    simp only [U128M]
    omega
  have hof2 : ¬(U64M < debt + debt * 500 / 10000) := by
    simp only [U64M]
    omega
  constructor
  · intro h1
    unfold liquidate_position
    rw [if_neg (by decide : ¬(false = true))]
    rw [hopen]
    rw [if_neg (by decide : ¬(true = false))]
    rw [hdebt]
    dsimp only
    rw [if_neg (by omega : ¬(p.collateral * price / 1000000 = 0))]
    rw [if_neg hof1]
    rw [if_pos h1]
  · intro h2
    unfold liquidate_position
    rw [if_neg (by decide : ¬(false = true))]
    rw [hopen]
    rw [if_neg (by decide : ¬(true = false))]
    rw [hdebt]
    dsimp only
    rw [if_neg (by omega : ¬(p.collateral * price / 1000000 = 0))]
    rw [if_neg hof1]
    rw [if_neg (Nat.not_le.mpr h2)]
    rw [if_neg hof2]
    rw [if_neg (by omega : ¬(price = 0))]
    set s1 := debt * 1000000 / price
    set s2 := debt * 500 / 10000 * 1000000 / price
    clear_value s1 s2
    by_cases hclamp : p.collateral < s1 + s2
    · rw [if_pos hclamp]
      simp only [Except.ok.injEq, LiquidationOutcome.mk.injEq]
      exact ⟨trivial, trivial, trivial, by omega, by omega⟩
    · rw [if_neg hclamp]
      rw [if_neg (by simp only [U64M]; omega : ¬(U64M < s1 + s2))]
      simp only [Except.ok.injEq, LiquidationOutcome.mk.injEq]
      exact ⟨trivial, trivial, trivial, by omega, by omega⟩

/-- Witness for the C2 amended theorem: collateral 39, debt 100, price 3.0
gives `ltv_bps = 8547 > 8500`; the liquidation seizes `min(39, 33 + 1) =
34`, leaving 5. -/
theorem liquidate_position_spec_witness :
    liquidate_position false ⟨39, 100, 0, true⟩ 3000000 0 =
      .ok ⟨8547, 100, 105, 34, 5⟩ := by
  have h := (liquidate_position_spec ⟨39, 100, 0, true⟩ 3000000 0 100
    (by decide) rfl (by decide) (by decide) (by decide) (by decide)).2 (by decide)
  exact h.trans (by decide)

/-- C10 counterexample: at borrowed 315,360,000 with 4 elapsed slots the
hardcoded-rate path floors its slot-years to zero and reports debt equal to
principal, while the close path with stored `borrow_rate = 10` converts the
4 slots to 1 second and accrues 1 unit of interest — so the two paths
differ even when the stored rate is exactly 10; conversely at rate 5 and
zero elapsed slots they agree, refuting both directions of the claimed
equivalence condition. -/
theorem lvf_debt_paths_counterexample :
    lvf_hardcoded_debt 315360000 0 4 = .ok 315360000 ∧
    lvf_close_repay_amount 315360000 0 4 10 = .ok 315360001 ∧
    (315360000 : Nat) ≠ 315360001 ∧
    lvf_hardcoded_debt 100 0 0 = .ok 100 ∧
    lvf_close_repay_amount 100 0 0 5 = .ok 100 := by
  exact ⟨by decide, by decide, by decide, by decide, by decide⟩

/-- C10 (amended): the health/liquidation path prices interest at a
hardcoded 10% APY over floored slot-years while the close path uses the
pool's stored byte-offset rate over floored 400ms-slot seconds; the two
debt computations use different floor granularities and agree in general
only in degenerate cases — in particular, when no slots have elapsed both
reduce to the raw borrowed amount for every stored rate. -/
theorem lvf_debt_paths_zero_elapsed (b c rate : Nat) (hb : b ≤ 10 ^ 15)
    (hr : rate ≤ 10 ^ 18) :
    lvf_hardcoded_debt b c c = .ok b ∧ lvf_close_repay_amount b c c rate = .ok b := by
  constructor
  · unfold lvf_hardcoded_debt
    rw [if_neg (by omega : ¬(c < c))]
    simp only [Nat.sub_self, Nat.zero_mul, Nat.zero_div, Nat.mul_zero, Nat.add_zero]
    rw [if_neg (by simp only [U128M]; omega : ¬(U128M < 0))]
  · unfold lvf_close_repay_amount
    rw [if_neg (by omega : ¬(c < c))]
    simp only [Nat.sub_self, Nat.zero_mul, Nat.zero_div, Nat.mul_zero, Nat.add_zero]
    have hbr : b * rate ≤ 10 ^ 15 * 10 ^ 18 := Nat.mul_le_mul hb hr
    rw [if_neg (by simp only [U128M]; omega : ¬(U128M < b * rate))]
    rw [if_neg (by simp only [U128M]; omega : ¬(U128M < 0))]
    rw [if_neg (by simp only [U64M]; omega : ¬(U64M < b))]

/-- Witness for the C10 amended theorem at borrowed 7, creation slot 3,
stored rate 12. -/
theorem lvf_debt_paths_zero_elapsed_witness :
    lvf_hardcoded_debt 7 3 3 = .ok 7 ∧ lvf_close_repay_amount 7 3 3 12 = .ok 7 :=
  lvf_debt_paths_zero_elapsed 7 3 12 (by decide) (by decide)

end Forge
